import Mathlib

/-!
Shallow embedding of the webHook backend (Express + Google Drive/Sheets glue).

The repository's interesting behaviour is the orchestration of remote calls:
`uploadSpreadsheet` (create file, then `makeFilePublic`, then advisory
`verifyPublicAccess`), the controller `uploadSpreadsheetController` that
forwards the created file id to n8n via `sendToN8n`, the webhook endpoint
`getSheetDataWebhook` that reads a sheet and converts rows to keyed records,
`copySheet`, and the `ensureAuthenticated` middleware.

Remote calls are modelled as oracle fields (`Except String _` values) inside
environment structures; the Lean functions mirror the JavaScript control flow
(try/catch becomes matching on `Except`, JavaScript truthiness is modelled
explicitly).
-/

/-- A JavaScript-like value, as it occurs in sheet cells and metadata maps. -/
inductive JSVal where
  | vUndefined
  | vNull
  | vBool (b : Bool)
  | vNum (n : Int)
  | vStr (s : String)
deriving Repr, DecidableEq

/-- JavaScript truthiness of a `JSVal` (`undefined`, `null`, `false`, `0`, `""` are falsy). -/
def JSVal.truthy : JSVal → Bool
  | .vUndefined => false
  | .vNull => false
  | .vBool b => b
  | .vNum n => decide (n ≠ 0)
  | .vStr s => decide (s ≠ "")

/-- The JavaScript `a || b` operator on values. -/
def jsOr (a b : JSVal) : JSVal :=
  if a.truthy then a else b

/-- The JavaScript `a || b` operator specialised to an optional string `a`
(`undefined` and `""` fall through to `b`). -/
def jsOrStr (a : Option String) (b : String) : String :=
  match a with
  | some s => if s = "" then b else s
  | none => b

/-- JavaScript truthiness of a string-or-undefined value. -/
def jsTruthyOptStr (a : Option String) : Bool :=
  match a with
  | some s => decide (s ≠ "")
  | none => false

/-- The JavaScript `value.toString()` coercion used when appending metadata
values as URL parameters and when using a cell value as an object key. -/
def jsToString : JSVal → String
  | .vUndefined => "undefined"
  | .vNull => "null"
  | .vBool b => if b then "true" else "false"
  | .vNum n => toString n
  | .vStr s => s

/-- A JSON value, used to model the JSON bodies of HTTP responses. -/
inductive JsonV where
  | jNull
  | jBool (b : Bool)
  | jNum (n : Int)
  | jStr (s : String)
  | jArr (xs : List JsonV)
  | jObj (fields : List (String × JsonV))
deriving Repr

/-- Look up a top-level field of a JSON object body. -/
def lookupField (j : JsonV) (k : String) : Option JsonV :=
  match j with
  | .jObj fields => fields.lookup k
  | _ => none

/-- An HTTP response: status code plus JSON body. -/
structure HttpResp where
  status : Nat
  body : JsonV

/-- The public edit URL that the service builds for a Drive file id
(`https://docs.google.com/spreadsheets/d/FILEID/edit?usp=sharing`). -/
def publicEditUrl (fileId : String) : String :=
  "https://docs.google.com/spreadsheets/d/" ++ fileId ++ "/edit?usp=sharing"

/-- Embeds `verifyPublicAccess` (googleService): an unauthenticated
`axios.get` of the public URL with `maxRedirects: 0` and
`validateStatus s := s < 400`. The fetch outcome is `none` for a transport
failure and `some status` for a received response; axios rejects when the
status fails `validateStatus`, and the surrounding try/catch turns any
rejection into `false`. -/
def verifyPublicAccess (fetchResult : Option Nat) : Bool :=
  match fetchResult with
  | some status =>
      if status < 400 then
        if status = 200 then true else true
      else false
  | none => false

/-- Result fields of `drive.permissions.create` (`id,type,role`). -/
structure PermCreated where
  id : String
  type : String
  role : String
deriving Repr, DecidableEq

/-- Result fields of the post-permission `drive.files.get`
(`webViewLink, webContentLink, ...`). -/
structure FileInfo where
  webViewLink : String
  webContentLink : Option String
deriving Repr, DecidableEq

/-- The object resolved by `makeFilePublic` on success. -/
structure PermResult where
  permissionId : String
  permissionType : String
  permissionRole : String
  webViewLink : String
  webContentLink : Option String
  publicUrl : String
deriving Repr, DecidableEq

/-- Outcomes of the remote calls issued inside `makeFilePublic`. -/
structure PermEnv where
  preCheck : Except String Unit
  createPerm : Except String PermCreated
  fileInfoGet : Except String FileInfo
  verifyFetch : Option Nat
deriving Repr

/-- Embeds `makeFilePublic` (googleService): a best-effort pre-check read of
the file (its failure is only logged), then `drive.permissions.create`
(failure is fatal and wrapped), then `drive.files.get` for the links (failure
also lands in the same catch), then an advisory `verifyPublicAccess` call in
its own try/catch whose outcome is discarded. -/
def makeFilePublic (fileId : String) (env : PermEnv) : Except String PermResult :=
  let _ := env.preCheck
  match env.createPerm with
  | .error e => .error ("Failed to make file public (ID: " ++ fileId ++ "). Reason: " ++ e)
  | .ok perm =>
    match env.fileInfoGet with
    | .error e => .error ("Failed to make file public (ID: " ++ fileId ++ "). Reason: " ++ e)
    | .ok info =>
      let _ := verifyPublicAccess env.verifyFetch
      .ok { permissionId := perm.id
            permissionType := perm.type
            permissionRole := perm.role
            webViewLink := info.webViewLink
            webContentLink := info.webContentLink
            publicUrl := publicEditUrl fileId }

/-- Result fields of `drive.files.create` (`id, name, webViewLink`). -/
structure CreatedFile where
  id : String
  name : String
  webViewLink : String
deriving Repr, DecidableEq

/-- Outcomes of the remote calls issued inside `uploadSpreadsheet`. -/
structure UploadEnv where
  driveCreate : Except String CreatedFile
  permEnv : PermEnv
deriving Repr

/-- The descriptor (`response.data` after mutation) returned by
`uploadSpreadsheet`. -/
structure UploadResult where
  id : String
  name : String
  webViewLink : String
  publicUrl : Option String
  isPublic : Bool
  publicPermissions : Option PermResult
  publicPermissionError : Option String
deriving Repr, DecidableEq

/-- Embeds `uploadSpreadsheet` (googleService): `drive.files.create` (failure
fatal, wrapped), then when `makePublic` is set, `makeFilePublic` in a
try/catch; on its success the descriptor gets `isPublic := true`, the public
links and the permission record; on its failure the descriptor gets
`isPublic := false` and the permission error message. -/
def uploadSpreadsheet (makePublic : Bool) (env : UploadEnv) : Except String UploadResult :=
  match env.driveCreate with
  | .error e => .error ("Failed to upload spreadsheet. Reason: " ++ e)
  | .ok f =>
    if makePublic then
      match makeFilePublic f.id env.permEnv with
      | .ok pp =>
          .ok { id := f.id
                name := f.name
                webViewLink := pp.webViewLink
                publicUrl := some pp.publicUrl
                isPublic := true
                publicPermissions := some pp
                publicPermissionError := none }
      | .error msg =>
          .ok { id := f.id
                name := f.name
                webViewLink := f.webViewLink
                publicUrl := none
                isPublic := false
                publicPermissions := none
                publicPermissionError := some msg }
    else
      .ok { id := f.id
            name := f.name
            webViewLink := f.webViewLink
            publicUrl := none
            isPublic := false
            publicPermissions := none
            publicPermissionError := none }

/-- Index into a row the JavaScript way: `row[index]` is `undefined` past the
end. -/
def rowCell (row : List JSVal) (i : Nat) : JSVal :=
  row.getD i JSVal.vUndefined

/-- The key under which a header cell is stored in a JavaScript object
(`obj[header]` coerces the property name to a string). -/
def jsKey (h : JSVal) : String :=
  jsToString h

/-- JavaScript object property assignment `obj[k] = v` on an ordered
association list: overwrite in place when the key exists, else append. -/
def jsObjSet (obj : List (String × JSVal)) (k : String) (v : JSVal) :
    List (String × JSVal) :=
  if obj.any (fun p => p.1 == k) then
    obj.map (fun p => if p.1 == k then (k, v) else p)
  else
    obj ++ [(k, v)]

/-- Embeds the `headers.forEach((header, index) => obj[header] = row[index] || null)`
loop of `getSheetDataWebhook`, carrying the current index. -/
def buildRecordAux (obj : List (String × JSVal)) (headers row : List JSVal)
    (i : Nat) : List (String × JSVal) :=
  match headers with
  | [] => obj
  | h :: rest =>
      buildRecordAux (jsObjSet obj (jsKey h) (jsOr (rowCell row i) JSVal.vNull)) rest row (i + 1)

/-- The keyed record built from one data row by `getSheetDataWebhook`. -/
def buildRecord (headers row : List JSVal) : List (String × JSVal) :=
  buildRecordAux [] headers row 0

/-- Serialization of a record value to JSON (record values are either truthy
cell values or `null`). -/
def jsonOfJSVal : JSVal → JsonV
  | .vUndefined => .jNull
  | .vNull => .jNull
  | .vBool b => .jBool b
  | .vNum n => .jNum n
  | .vStr s => .jStr s

/-- Serialization of a keyed record to a JSON object. -/
def jsonOfRecord (r : List (String × JSVal)) : JsonV :=
  .jObj (r.map (fun p => (p.1, jsonOfJSVal p.2)))

/-- Embeds `readSheet` (googleService): `sheets.spreadsheets.values.get`
returns `values` that may be absent (`response.data.values || []`); an API
failure is wrapped into a new error message. -/
def readSheet (spreadsheetId : String)
    (apiResult : Except String (Option (List (List JSVal)))) :
    Except String (List (List JSVal)) :=
  match apiResult with
  | .ok vals => .ok (vals.getD [])
  | .error e =>
      .error ("Failed to read Google Sheet (ID: " ++ spreadsheetId ++ "). Reason: " ++ e)

/-- Query parameters of `GET /webhook/sheet`. -/
structure WebhookQuery where
  spreadsheetId : Option String
  range : Option String
  webhookToken : Option String
deriving Repr

/-- Outcomes of the remote calls available to `getSheetDataWebhook`:
the client-credential token fetch and the raw sheet values read. -/
structure WebhookEnv where
  tokenFetch : Except String String
  sheetApiResult : Except String (Option (List (List JSVal)))
deriving Repr

/-- Embeds `getSheetDataWebhook` (webhookController). Returns the HTTP
response together with a flag recording whether any remote call was started
(the token fetch or the sheet read). Control flow follows the source: token
gate first, then the `spreadsheetId` presence check, then the try block with
the token fetch, `readSheet`, the empty-sheet early return, and the
header-keyed conversion of the remaining rows. -/
def getSheetDataWebhook (q : WebhookQuery) (expectedToken : Option String)
    (env : WebhookEnv) : HttpResp × Bool :=
  if !(jsTruthyOptStr q.webhookToken) || q.webhookToken != expectedToken then
    ({ status := 401, body := .jObj [("error", .jStr "Invalid webhook token")] }, false)
  else if !(jsTruthyOptStr q.spreadsheetId) then
    ({ status := 400,
       body := .jObj [("error", .jStr "Missing required parameter: spreadsheetId")] }, false)
  else
    match env.tokenFetch with
    | .error e =>
        ({ status := 500,
           body := .jObj [("error", .jStr "Failed to read Google Sheet"),
                          ("message", .jStr e)] }, true)
    | .ok _ =>
        match readSheet (q.spreadsheetId.getD "") env.sheetApiResult with
        | .error e =>
            ({ status := 500,
               body := .jObj [("error", .jStr "Failed to read Google Sheet"),
                              ("message", .jStr e)] }, true)
        | .ok sheetData =>
            if sheetData.length < 1 then
              ({ status := 200, body := .jObj [("data", .jArr [])] }, true)
            else
              let headers := sheetData.headD []
              let rows := (sheetData.drop 1).map (fun row => buildRecord headers row)
              ({ status := 200,
                 body := .jObj [
                   ("sheetId", .jStr (q.spreadsheetId.getD "")),
                   ("range", .jStr (jsOrStr q.range "Sheet1")),
                   ("rowCount", .jNum (rows.length : Int)),
                   ("data", .jArr (rows.map jsonOfRecord))] }, true)

/-- Hexadecimal digit (uppercase) for a value below 16. -/
def hexDigit (n : Nat) : Char :=
  if n < 10 then Char.ofNat (48 + n) else Char.ofNat (55 + n)

/-- UTF-8 byte sequence of a Unicode code point. -/
def utf8Bytes (n : Nat) : List Nat :=
  if n < 128 then [n]
  else if n < 2048 then [192 + n / 64, 128 + n % 64]
  else if n < 65536 then [224 + n / 4096, 128 + (n / 64) % 64, 128 + n % 64]
  else [240 + n / 262144, 128 + (n / 4096) % 64, 128 + (n / 64) % 64, 128 + n % 64]

/-- Percent-encoding of one byte, as `URLSearchParams` emits it. -/
def percentByte (b : Nat) : String :=
  String.mk [Char.ofNat 37, hexDigit (b / 16 % 16), hexDigit (b % 16)]

/-- Characters kept verbatim by the `application/x-www-form-urlencoded`
serializer used by `URLSearchParams.toString`: ASCII alphanumerics and
`*`, `-`, `.`, `_`. -/
def isFormSafe (c : Char) : Bool :=
  (48 ≤ c.toNat && c.toNat ≤ 57) || (65 ≤ c.toNat && c.toNat ≤ 90) ||
  (97 ≤ c.toNat && c.toNat ≤ 122) ||
  c.toNat = 42 || c.toNat = 45 || c.toNat = 46 || c.toNat = 95

/-- Form-encoding of one character: safe characters verbatim, space as `+`,
anything else percent-encoded byte by byte. -/
def formEncodeChar (c : Char) : String :=
  if c = ' ' then "+"
  else if isFormSafe c then String.singleton c
  else String.join ((utf8Bytes c.toNat).map percentByte)

/-- Form-encoding of a whole string. -/
def formEncodeStr (s : String) : String :=
  String.join (s.data.map formEncodeChar)

/-- `URLSearchParams.toString`: `k1=v1&k2=v2` with form-encoded keys and
values. -/
def formEncodeParams (ps : List (String × String)) : String :=
  String.intercalate "&" (ps.map (fun p => formEncodeStr p.1 ++ "=" ++ formEncodeStr p.2))

/-- Environment of one `sendToN8n` call: the generation timestamp
(`new Date().toISOString()`) and the outcome of the single outbound
`axios.get` (which rejects on transport failure or non-2xx status). -/
structure N8nEnv where
  timestamp : String
  httpGet : Except String JsonV

/-- Embeds `sendToN8n` (googleService): build a `URLSearchParams` with the
spreadsheet id, a timestamp and the fixed source tag, append every metadata
entry whose value is neither `null` nor `undefined` (stringified), splice the
serialized parameters onto the webhook URL with `&` or `?`, and issue exactly
one GET. Returns the call result together with the list of URLs requested. -/
def sendToN8n (spreadsheetId n8nWebhookUrl : String)
    (metadata : List (String × JSVal)) (env : N8nEnv) :
    Except String JsonV × List String :=
  let params : List (String × String) := [("spreadsheetId", spreadsheetId)]
  let params := params ++ [("timestamp", env.timestamp)]
  let params := params ++ [("source", "RetailSyncSaaS")]
  let params := metadata.foldl
    (fun ps kv =>
      if kv.2 ≠ JSVal.vNull ∧ kv.2 ≠ JSVal.vUndefined then
        ps ++ [(kv.1, jsToString kv.2)]
      else ps) params
  let fullUrl :=
    n8nWebhookUrl ++ (if n8nWebhookUrl.contains '?' then "&" else "?") ++
      formEncodeParams params
  match env.httpGet with
  | .ok d => (.ok d, [fullUrl])
  | .error e => (.error ("Failed to send data to n8n: " ++ e), [fullUrl])

/-- The user record stored in the session by passport
(`{id, displayName, email, accessToken, refreshToken}`; only the fields the
controllers read are modelled). -/
structure UserRec where
  displayName : String
  email : Option String
  accessToken : Option String
deriving Repr

/-- The uploaded file object produced by multer (only the field the
controller reads after validation). -/
structure FileUpload where
  originalname : String
deriving Repr

/-- The hard-coded fallback n8n webhook URL in `uploadSpreadsheetController`. -/
def defaultN8nUrl : String :=
  "https://shivam02020.app.n8n.cloud/webhook-test/0abe2d8f-0510-49d9-928e-d29d8d49291f"

/-- Serialization of an `UploadResult` descriptor to the JSON placed under
`spreadsheet` in the controller response (`undefined` fields are omitted, as
`JSON.stringify` drops them). -/
def jsonOfUpload (r : UploadResult) : JsonV :=
  .jObj ([("id", .jStr r.id), ("name", .jStr r.name), ("webViewLink", .jStr r.webViewLink)]
    ++ (match r.publicUrl with
        | some u => [("publicUrl", JsonV.jStr u)]
        | none => [])
    ++ [("isPublic", .jBool r.isPublic)]
    ++ (match r.publicPermissions with
        | some pp => [("publicPermissions",
            JsonV.jObj [("permissionId", .jStr pp.permissionId),
                        ("permissionType", .jStr pp.permissionType),
                        ("permissionRole", .jStr pp.permissionRole),
                        ("webViewLink", .jStr pp.webViewLink),
                        ("publicUrl", .jStr pp.publicUrl)])]
        | none => [])
    ++ (match r.publicPermissionError with
        | some e => [("publicPermissionError", JsonV.jStr e)]
        | none => []))

/-- Embeds `uploadSpreadsheetController` (sheetController): authentication
and token check, file presence check, `uploadSpreadsheet` with
`makePublic = true`, then the automatic `sendToN8n` forward whose failure is
reported inside a 201 response rather than propagated. -/
def uploadSpreadsheetController (user : Option UserRec) (file : Option FileUpload)
    (n8nUrlVar : Option String) (env : UploadEnv) (n8nEnv : N8nEnv) :
    Nat × JsonV :=
  match user with
  | none => (401, .jObj [("message", .jStr "Authentication required or access token missing.")])
  | some u =>
    if !(jsTruthyOptStr u.accessToken) then
      (401, .jObj [("message", .jStr "Authentication required or access token missing.")])
    else
      match file with
      | none => (400, .jObj [("message", .jStr "No file uploaded. Please upload a spreadsheet file.")])
      | some f =>
        match uploadSpreadsheet true env with
        | .error e =>
            (500, .jObj [("message", .jStr "Failed to upload spreadsheet to Google Drive."),
                         ("error", .jStr e)])
        | .ok data =>
            let n8nWebhookUrl := jsOrStr n8nUrlVar defaultN8nUrl
            let publicUrl := jsOrStr data.publicUrl (publicEditUrl data.id)
            let metadata : List (String × JSVal) := [
              ("fileName", .vStr data.name),
              ("webViewLink", .vStr data.webViewLink),
              ("publicUrl", .vStr publicUrl),
              ("uploadedBy", .vStr (jsOrStr u.email u.displayName)),
              ("sourceFile", .vStr f.originalname),
              ("isPublic", .vStr (if data.isPublic = true then "true" else "false"))]
            match (sendToN8n data.id n8nWebhookUrl metadata n8nEnv).1 with
            | .ok result =>
                (201, .jObj [
                  ("message", .jStr "Spreadsheet uploaded and automatically sent to n8n workflow!"),
                  ("spreadsheet", jsonOfUpload data),
                  ("n8nForwarding", .jObj [
                    ("success", .jBool true),
                    ("webhookUrl", .jStr n8nWebhookUrl),
                    ("result", result)])])
            | .error e =>
                (201, .jObj [
                  ("message", .jStr "Spreadsheet uploaded successfully, but failed to send to n8n workflow."),
                  ("spreadsheet", jsonOfUpload data),
                  ("n8nForwarding", .jObj [
                    ("success", .jBool false),
                    ("webhookUrl", .jStr n8nWebhookUrl),
                    ("error", .jStr e)])])

/-- Result fields of `drive.files.copy` (`id, name, webViewLink`). -/
structure CopyData where
  id : String
  name : String
  webViewLink : String
deriving Repr, DecidableEq

/-- Outcomes of the remote calls issued inside `copySheet`: the best-effort
name lookup (`drive.files.get` with `fields: name`) and the copy itself,
which receives the requested name for the new file. -/
structure CopyEnv where
  getName : Except String String
  doCopy : String → Except String CopyData

/-- Embeds `copySheet` (googleService): fetch the source file's name first in
its own try/catch (on failure fall back to the default name `Spreadsheet` and
continue), request the copy under `newSheetName || "Copy of " + originalName`
(JavaScript `||`, so an empty string also falls through to the default), and
wrap a copy failure in a new error message. -/
def copySheet (sourceSheetId : String) (newSheetName : Option String)
    (env : CopyEnv) : Except String CopyData :=
  let originalName : String :=
    match env.getName with
    | .ok n => n
    | .error _ => "Spreadsheet"
  let requested : String := jsOrStr newSheetName ("Copy of " ++ originalName)
  match env.doCopy requested with
  | .ok d => .ok d
  | .error e =>
      .error ("Failed to copy Google Sheet (ID: " ++ sourceSheetId ++ "). Reason: " ++ e)

/-- Outcome of running a middleware: either fall through to the handler or
answer immediately with a response. -/
inductive MwOutcome where
  | next
  | respond (status : Nat) (body : JsonV)

/-- Embeds `ensureAuthenticated` (apiRoutes): an authenticated session whose
user record carries a truthy `accessToken` falls through to the handler; an
authenticated session without one is answered 401 with the token-missing
message; an unauthenticated request is answered 401 with the unauthorized
message. -/
def ensureAuthenticated (isAuthenticated : Bool) (user : Option UserRec) : MwOutcome :=
  if isAuthenticated then
    match user with
    | some u =>
        if jsTruthyOptStr u.accessToken then MwOutcome.next
        else MwOutcome.respond 401 (.jObj [("message", .jStr "Access token missing in session.")])
    | none => MwOutcome.respond 401 (.jObj [("message", .jStr "Access token missing in session.")])
  else
    MwOutcome.respond 401 (.jObj [("message", .jStr "Unauthorized. Please log in.")])

/-! ## Helper lemmas shared by several claim theorems -/

/-- The verification fetch outcome is discarded inside `makeFilePublic`. -/
theorem makeFilePublic_verify_irrelevant (fileId : String) (p : PermEnv) (vf : Option Nat) :
    makeFilePublic fileId { p with verifyFetch := vf } = makeFilePublic fileId p := rfl

/-- The verification fetch outcome is discarded by the whole upload flow. -/
theorem uploadSpreadsheet_verify_irrelevant (makePublic : Bool) (env : UploadEnv)
    (vf : Option Nat) :
    uploadSpreadsheet makePublic { env with permEnv := { env.permEnv with verifyFetch := vf } }
      = uploadSpreadsheet makePublic env := rfl

/-- When stage 1 succeeds, the upload flow always resolves (stage-2 failure is
absorbed into the descriptor). -/
theorem uploadSpreadsheet_ok_of_create_ok (env : UploadEnv) (f : CreatedFile)
    (h : env.driveCreate = .ok f) :
    ∃ data, uploadSpreadsheet true env = .ok data := by
  cases hm : makeFilePublic f.id env.permEnv with
  | ok pp =>
      exact ⟨{ id := f.id, name := f.name, webViewLink := pp.webViewLink,
               publicUrl := some pp.publicUrl, isPublic := true,
               publicPermissions := some pp, publicPermissionError := none },
             by simp [uploadSpreadsheet, h, hm]⟩
  | error msg =>
      exact ⟨{ id := f.id, name := f.name, webViewLink := f.webViewLink,
               publicUrl := none, isPublic := false,
               publicPermissions := none, publicPermissionError := some msg },
             by simp [uploadSpreadsheet, h, hm]⟩

/-- A transport failure of the single outbound GET is wrapped and returned. -/
theorem sendToN8n_error (id url : String) (md : List (String × JSVal)) (env : N8nEnv)
    (e : String) (hfail : env.httpGet = .error e) :
    (sendToN8n id url md env).1 = .error ("Failed to send data to n8n: " ++ e) := by
  simp [sendToN8n, hfail]

/-! ## Claim theorems -/

/-- C7: the reachability verification never raises (it is a total function
into `Bool`): any received response with status < 400, redirects included,
yields `true`; any transport failure yields `false`; and the outcome of the
verification fetch never changes the result of the upload flow, so a
verification failure alone cannot fail the upload. -/
theorem verifyPublicAccess_is_safe :
    (∀ s, s < 400 → verifyPublicAccess (some s) = true) ∧
    verifyPublicAccess none = false ∧
    (∀ (makePublic : Bool) (env : UploadEnv) (vf : Option Nat),
      uploadSpreadsheet makePublic
          { env with permEnv := { env.permEnv with verifyFetch := vf } }
        = uploadSpreadsheet makePublic env) := by
  refine ⟨?_, rfl, ?_⟩
  · intro s hs
    simp [verifyPublicAccess, hs]
  · intro makePublic env vf
    exact uploadSpreadsheet_verify_irrelevant makePublic env vf

/-- Witness for C7 at a concrete redirect status. -/
theorem verifyPublicAccess_is_safe_witness :
    verifyPublicAccess (some 302) = true :=
  verifyPublicAccess_is_safe.1 302 (by decide)

/-- C1: in every upload-flow run that reaches stage 2 (stage 1 succeeded and
publicizing is enabled), the returned descriptor has `isPublic = true`
exactly when the `makeFilePublic` call succeeded; when it failed the
descriptor has `isPublic = false` and carries the permission error message;
and the reachability-verification outcome never changes the flow's result. -/
theorem upload_isPublic_tracks_permission (env : UploadEnv) (f : CreatedFile)
    (h : env.driveCreate = .ok f) :
    ∃ r, uploadSpreadsheet true env = .ok r ∧
      (r.isPublic = true ↔ ∃ pp, makeFilePublic f.id env.permEnv = .ok pp) ∧
      (∀ msg, makeFilePublic f.id env.permEnv = .error msg →
        r.isPublic = false ∧ r.publicPermissionError = some msg) ∧
      (∀ vf, uploadSpreadsheet true
          { env with permEnv := { env.permEnv with verifyFetch := vf } }
        = uploadSpreadsheet true env) := by
  cases hm : makeFilePublic f.id env.permEnv with
  | ok pp =>
      refine ⟨{ id := f.id, name := f.name, webViewLink := pp.webViewLink,
                publicUrl := some pp.publicUrl, isPublic := true,
                publicPermissions := some pp, publicPermissionError := none },
              by simp [uploadSpreadsheet, h, hm], ?_, ?_, ?_⟩
      · constructor
        · intro _
          exact ⟨pp, rfl⟩
        · intro _
          rfl
      · intro msg hmsg
        exact absurd hmsg (by simp)
      · intro vf
        exact uploadSpreadsheet_verify_irrelevant true env vf
  | error msg =>
      refine ⟨{ id := f.id, name := f.name, webViewLink := f.webViewLink,
                publicUrl := none, isPublic := false,
                publicPermissions := none, publicPermissionError := some msg },
              by simp [uploadSpreadsheet, h, hm], ?_, ?_, ?_⟩
      · constructor
        · intro hfalse
          exact absurd hfalse (by simp)
        · intro ⟨pp, hpp⟩
          exact absurd hpp (by simp)
      · intro msg' hmsg
        have : msg = msg' := by
          injection hmsg
        subst this
        exact ⟨rfl, rfl⟩
      · intro vf
        exact uploadSpreadsheet_verify_irrelevant true env vf

/-- Witness for C1: a concrete run whose permission call is denied. -/
theorem upload_isPublic_tracks_permission_witness :
    ∃ r, uploadSpreadsheet true
        { driveCreate := .ok { id := "f1", name := "Sheet", webViewLink := "W" },
          permEnv := { preCheck := .ok (), createPerm := .error "denied",
                       fileInfoGet := .ok { webViewLink := "V", webContentLink := none },
                       verifyFetch := some 200 } } = .ok r ∧
      (r.isPublic = true ↔ ∃ pp, makeFilePublic "f1"
          { preCheck := .ok (), createPerm := .error "denied",
            fileInfoGet := .ok { webViewLink := "V", webContentLink := none },
            verifyFetch := some 200 } = .ok pp) ∧
      (∀ msg, makeFilePublic "f1"
          { preCheck := .ok (), createPerm := .error "denied",
            fileInfoGet := .ok { webViewLink := "V", webContentLink := none },
            verifyFetch := some 200 } = .error msg →
        r.isPublic = false ∧ r.publicPermissionError = some msg) ∧
      (∀ vf, uploadSpreadsheet true
          { driveCreate := .ok { id := "f1", name := "Sheet", webViewLink := "W" },
            permEnv := { preCheck := .ok (), createPerm := .error "denied",
                         fileInfoGet := .ok { webViewLink := "V", webContentLink := none },
                         verifyFetch := vf } }
        = uploadSpreadsheet true
          { driveCreate := .ok { id := "f1", name := "Sheet", webViewLink := "W" },
            permEnv := { preCheck := .ok (), createPerm := .error "denied",
                         fileInfoGet := .ok { webViewLink := "V", webContentLink := none },
                         verifyFetch := some 200 } }) :=
  upload_isPublic_tracks_permission
    { driveCreate := .ok { id := "f1", name := "Sheet", webViewLink := "W" },
      permEnv := { preCheck := .ok (), createPerm := .error "denied",
                   fileInfoGet := .ok { webViewLink := "V", webContentLink := none },
                   verifyFetch := some 200 } }
    { id := "f1", name := "Sheet", webViewLink := "W" } rfl

/-- C9: on a protected route, an authenticated session whose user record
lacks a (truthy) access token is rejected before the handler runs with the
token-missing message, while an unauthenticated request is rejected with the
unauthorized message; both are 401 but the bodies are distinct. -/
theorem ensureAuthenticated_token_missing_distinct (user : Option UserRec)
    (hns : ∀ u, user = some u → jsTruthyOptStr u.accessToken = false) :
    ensureAuthenticated true user
        = MwOutcome.respond 401 (.jObj [("message", .jStr "Access token missing in session.")]) ∧
    ensureAuthenticated false user
        = MwOutcome.respond 401 (.jObj [("message", .jStr "Unauthorized. Please log in.")]) ∧
    ensureAuthenticated true user ≠ MwOutcome.next ∧
    ensureAuthenticated false user ≠ MwOutcome.next ∧
    ("Access token missing in session." : String) ≠ "Unauthorized. Please log in." := by
  have h1 : ensureAuthenticated true user
      = MwOutcome.respond 401 (.jObj [("message", .jStr "Access token missing in session.")]) := by
    cases user with
    | none => rfl
    | some u => simp [ensureAuthenticated, hns u rfl]
  have h2 : ensureAuthenticated false user
      = MwOutcome.respond 401 (.jObj [("message", .jStr "Unauthorized. Please log in.")]) := rfl
  refine ⟨h1, h2, ?_, ?_, by decide⟩
  · rw [h1]
    intro hc
    exact MwOutcome.noConfusion hc
  · rw [h2]
    intro hc
    exact MwOutcome.noConfusion hc

/-- Witness for C9: an authenticated session carrying a user without an
access token. -/
theorem ensureAuthenticated_token_missing_distinct_witness :
    ensureAuthenticated true (some { displayName := "A", email := none, accessToken := none })
        = MwOutcome.respond 401 (.jObj [("message", .jStr "Access token missing in session.")]) ∧
    ensureAuthenticated false (some { displayName := "A", email := none, accessToken := none })
        = MwOutcome.respond 401 (.jObj [("message", .jStr "Unauthorized. Please log in.")]) ∧
    ensureAuthenticated true (some { displayName := "A", email := none, accessToken := none })
        ≠ MwOutcome.next ∧
    ensureAuthenticated false (some { displayName := "A", email := none, accessToken := none })
        ≠ MwOutcome.next ∧
    ("Access token missing in session." : String) ≠ "Unauthorized. Please log in." :=
  ensureAuthenticated_token_missing_distinct
    (some { displayName := "A", email := none, accessToken := none })
    (by intro u h; cases h; rfl)

/-- C4: a request to `GET /webhook/sheet` whose `webhookToken` query
parameter is missing or differs from the configured token is answered 401
with `{error: "Invalid webhook token"}`, and no remote call is started (the
returned flag is `false`). -/
theorem webhook_invalid_token_401 (q : WebhookQuery) (cfg : String) (env : WebhookEnv)
    (h : q.webhookToken = none ∨ q.webhookToken ≠ some cfg) :
    getSheetDataWebhook q (some cfg) env
      = ({ status := 401, body := .jObj [("error", .jStr "Invalid webhook token")] }, false) := by
  have hcond : (!(jsTruthyOptStr q.webhookToken) || q.webhookToken != some cfg) = true := by
    rcases h with h | h
    · rw [h]
      rfl
    · cases hq : q.webhookToken with
      | none => rfl
      | some t =>
          rw [hq] at h
          have ht : t ≠ cfg := by
            intro hc
            exact h (by rw [hc])
          simp [ht]
  simp [getSheetDataWebhook, hcond]

/-- Witness for C4: a concrete request with the wrong token. -/
theorem webhook_invalid_token_401_witness :
    getSheetDataWebhook
        { spreadsheetId := some "X", range := none, webhookToken := some "wrong" }
        (some "secret")
        { tokenFetch := .ok "svc", sheetApiResult := .ok none }
      = ({ status := 401, body := .jObj [("error", .jStr "Invalid webhook token")] }, false) :=
  webhook_invalid_token_401
    { spreadsheetId := some "X", range := none, webhookToken := some "wrong" }
    "secret"
    { tokenFetch := .ok "svc", sheetApiResult := .ok none }
    (Or.inr (by simp))

/-- C8 counterexample: `copySheet` called with the empty string as `newName`
(a given argument) does not name the copy `""`; because the source uses the
JavaScript `||` operator, the copy is requested under the default
`"Copy of " + originalName` instead. -/
theorem copySheet_empty_newName_counterexample :
    copySheet "src1" (some "")
        { getName := .ok "Budget",
          doCopy := fun n => .ok { id := "c1", name := n, webViewLink := "L" } }
      = .ok { id := "c1", name := "Copy of Budget", webViewLink := "L" } ∧
    ("Copy of Budget" : String) ≠ "" :=
  ⟨rfl, by decide⟩

/-- C8 (amended): the source name is fetched first and a fetch failure does
not abort the call (the default name `Spreadsheet` is used); the copy is
requested under `newName` when a non-empty `newName` is given, and under
`"Copy of " + originalName` when `newName` is absent or empty. -/
theorem copySheet_naming (src : String) (env : CopyEnv) (d : CopyData) :
    (∀ e, env.getName = .error e → env.doCopy "Copy of Spreadsheet" = .ok d →
        copySheet src none env = .ok d) ∧
    (∀ s, s ≠ "" → env.doCopy s = .ok d → copySheet src (some s) env = .ok d) ∧
    (∀ orig, env.getName = .ok orig → env.doCopy ("Copy of " ++ orig) = .ok d →
        copySheet src none env = .ok d) ∧
    (∀ orig, env.getName = .ok orig → env.doCopy ("Copy of " ++ orig) = .ok d →
        copySheet src (some "") env = .ok d) := by
  refine ⟨?_, ?_, ?_, ?_⟩
  · intro e hname hcopy
    simp [copySheet, jsOrStr, hname, hcopy]
  · intro s hs hcopy
    simp [copySheet, jsOrStr, hs, hcopy]
  · intro orig hname hcopy
    simp [copySheet, jsOrStr, hname, hcopy]
  · intro orig hname hcopy
    simp [copySheet, jsOrStr, hname, hcopy]

/-- Witness for C8 (amended): a concrete copy whose name lookup fails and
whose copy succeeds under the default name. -/
theorem copySheet_naming_witness :
    copySheet "s9" none
        { getName := .error "not found",
          doCopy := fun n => .ok { id := "c2", name := n, webViewLink := "L2" } }
      = .ok { id := "c2", name := "Copy of Spreadsheet", webViewLink := "L2" } :=
  (copySheet_naming "s9"
      { getName := .error "not found",
        doCopy := fun n => .ok { id := "c2", name := n, webViewLink := "L2" } }
      { id := "c2", name := "Copy of Spreadsheet", webViewLink := "L2" }).1
    "not found" rfl rfl

/-- C2: when stage 1 (file creation) succeeds and the stage-3 forward call
fails, the controller still answers 201, includes the uploaded file's
descriptor under `spreadsheet`, and attaches an `n8nForwarding` object with
`success = false` and the forwarding error message. -/
theorem upload_forward_failure_still_201 (u : UserRec) (fl : FileUpload)
    (urlVar : Option String) (env : UploadEnv) (n8nEnv : N8nEnv) (f : CreatedFile)
    (htok : jsTruthyOptStr u.accessToken = true)
    (hcreate : env.driveCreate = .ok f)
    (e : String) (hfail : n8nEnv.httpGet = .error e) :
    ∃ data, uploadSpreadsheet true env = .ok data ∧
      uploadSpreadsheetController (some u) (some fl) urlVar env n8nEnv
        = (201, .jObj [
            ("message",
              .jStr "Spreadsheet uploaded successfully, but failed to send to n8n workflow."),
            ("spreadsheet", jsonOfUpload data),
            ("n8nForwarding", .jObj [
              ("success", .jBool false),
              ("webhookUrl", .jStr (jsOrStr urlVar defaultN8nUrl)),
              ("error", .jStr ("Failed to send data to n8n: " ++ e))])]) := by
  obtain ⟨data, hdata⟩ := uploadSpreadsheet_ok_of_create_ok env f hcreate
  refine ⟨data, hdata, ?_⟩
  have hsend : ∀ (md : List (String × JSVal)) (url : String),
      (sendToN8n data.id url md n8nEnv).1 = .error ("Failed to send data to n8n: " ++ e) :=
    fun md url => sendToN8n_error data.id url md n8nEnv e hfail
  simp [uploadSpreadsheetController, htok, hdata, hsend]

/-- Witness for C2: a concrete upload whose forward call fails on transport. -/
theorem upload_forward_failure_still_201_witness :
    ∃ data, uploadSpreadsheet true
        { driveCreate := .ok { id := "f2", name := "S", webViewLink := "W" },
          permEnv := { preCheck := .ok (),
                       createPerm := .ok { id := "p", type := "anyone", role := "writer" },
                       fileInfoGet := .ok { webViewLink := "V", webContentLink := none },
                       verifyFetch := none } } = .ok data ∧
      uploadSpreadsheetController
          (some { displayName := "D", email := some "e@x", accessToken := some "tok" })
          (some { originalname := "orig.csv" }) none
          { driveCreate := .ok { id := "f2", name := "S", webViewLink := "W" },
            permEnv := { preCheck := .ok (),
                         createPerm := .ok { id := "p", type := "anyone", role := "writer" },
                         fileInfoGet := .ok { webViewLink := "V", webContentLink := none },
                         verifyFetch := none } }
          { timestamp := "T", httpGet := .error "ECONNREFUSED" }
        = (201, .jObj [
            ("message",
              .jStr "Spreadsheet uploaded successfully, but failed to send to n8n workflow."),
            ("spreadsheet", jsonOfUpload data),
            ("n8nForwarding", .jObj [
              ("success", .jBool false),
              ("webhookUrl", .jStr (jsOrStr none defaultN8nUrl)),
              ("error", .jStr ("Failed to send data to n8n: " ++ "ECONNREFUSED"))])]) :=
  upload_forward_failure_still_201
    { displayName := "D", email := some "e@x", accessToken := some "tok" }
    { originalname := "orig.csv" } none
    { driveCreate := .ok { id := "f2", name := "S", webViewLink := "W" },
      permEnv := { preCheck := .ok (),
                   createPerm := .ok { id := "p", type := "anyone", role := "writer" },
                   fileInfoGet := .ok { webViewLink := "V", webContentLink := none },
                   verifyFetch := none } }
    { timestamp := "T", httpGet := .error "ECONNREFUSED" }
    { id := "f2", name := "S", webViewLink := "W" }
    rfl rfl "ECONNREFUSED" rfl

/-- The metadata fold in `sendToN8n` appends exactly the entries whose value
is neither `null` nor `undefined`, in order. -/
theorem n8n_foldl_filter (metadata : List (String × JSVal)) (init : List (String × String)) :
    metadata.foldl
      (fun ps kv =>
        if kv.2 ≠ JSVal.vNull ∧ kv.2 ≠ JSVal.vUndefined then
          ps ++ [(kv.1, jsToString kv.2)]
        else ps)
      init
    = init ++ (metadata.filter
        (fun kv => !(kv.2 == JSVal.vNull) && !(kv.2 == JSVal.vUndefined))).map
        (fun kv => (kv.1, jsToString kv.2)) := by
  induction metadata generalizing init with
  | nil => simp
  | cons kv rest ih =>
      rcases Decidable.em (kv.2 = JSVal.vNull) with h1 | h1
      · simp [h1, ih]
      · rcases Decidable.em (kv.2 = JSVal.vUndefined) with h2 | h2
        · simp [h1, h2, ih]
        · simp [h1, h2, ih]

/-- C6: a forwarder call issues exactly one outbound GET, whose URL is the
callback URL joined (with `&` if it already contains `?`, else `?`) to the
form-encoded parameters: the identifier, the generation timestamp, the fixed
source tag, and every metadata entry whose value is neither `null` nor
`undefined`; a success is passed through and the first transport failure is
terminal (wrapped and returned, no retry). -/
theorem sendToN8n_single_get (id url : String) (md : List (String × JSVal)) (env : N8nEnv) :
    (sendToN8n id url md env).2
      = [url ++ (if url.contains '?' then "&" else "?") ++
          formEncodeParams
            ([("spreadsheetId", id), ("timestamp", env.timestamp),
              ("source", "RetailSyncSaaS")]
              ++ (md.filter
                  (fun kv => !(kv.2 == JSVal.vNull) && !(kv.2 == JSVal.vUndefined))).map
                  (fun kv => (kv.1, jsToString kv.2)))] ∧
    (∀ d, env.httpGet = .ok d → (sendToN8n id url md env).1 = .ok d) ∧
    (∀ e, env.httpGet = .error e →
      (sendToN8n id url md env).1 = .error ("Failed to send data to n8n: " ++ e)) := by
  refine ⟨?_, ?_, ?_⟩
  · cases hg : env.httpGet with
    | ok d => simp [sendToN8n, hg, n8n_foldl_filter]
    | error e => simp [sendToN8n, hg, n8n_foldl_filter]
  · intro d hd
    simp [sendToN8n, hd]
  · intro e he
    exact sendToN8n_error id url md env e he

/-- Witness for C6: a concrete transport failure is terminal. -/
theorem sendToN8n_single_get_witness :
    (sendToN8n "sid" "http://h/cb" [("a", JSVal.vNull)]
        { timestamp := "T", httpGet := .error "boom" }).1
      = .error ("Failed to send data to n8n: " ++ "boom") :=
  (sendToN8n_single_get "sid" "http://h/cb" [("a", JSVal.vNull)]
      { timestamp := "T", httpGet := .error "boom" }).2.2 "boom" rfl

/-- Setting a key absent from the object appends the pair. -/
theorem jsObjSet_append (obj : List (String × JSVal)) (k : String) (v : JSVal)
    (h : ∀ p ∈ obj, p.1 ≠ k) : jsObjSet obj k v = obj ++ [(k, v)] := by
  have hany : obj.any (fun p => p.1 == k) = false := by
    rw [List.any_eq_false]
    intro p hp
    simpa using h p hp
  simp [jsObjSet, hany]

/-- Unfolding the record loop when all header keys are distinct and disjoint
from the accumulated object: the loop appends one pair per header cell, in
order, pairing the key with `row[index] || null`. -/
theorem buildRecordAux_nodup (headers : List JSVal) :
    ∀ (row : List JSVal) (i : Nat) (obj : List (String × JSVal)),
      (headers.map jsKey).Nodup →
      (∀ p ∈ obj, p.1 ∉ headers.map jsKey) →
      buildRecordAux obj headers row i
        = obj ++ (headers.enumFrom i).map
            (fun p => (jsKey p.2, jsOr (rowCell row p.1) JSVal.vNull)) := by
  induction headers with
  | nil =>
      intro row i obj _ _
      simp [buildRecordAux]
  | cons h rest ih =>
      intro row i obj hnd hdisj
      have hkey : ∀ p ∈ obj, p.1 ≠ jsKey h := by
        intro p hp hc
        exact hdisj p hp (by rw [hc]; simp)
      have hnd2 := hnd
      rw [List.map_cons, List.nodup_cons] at hnd2
      have hnd' : (rest.map jsKey).Nodup := hnd2.2
      have hnotmem : jsKey h ∉ rest.map jsKey := hnd2.1
      have hdisj' : ∀ p ∈ obj ++ [(jsKey h, jsOr (rowCell row i) JSVal.vNull)],
          p.1 ∉ rest.map jsKey := by
        intro p hp
        rcases List.mem_append.mp hp with hp | hp
        · intro hc
          exact hdisj p hp (by simp [hc])
        · have : p = (jsKey h, jsOr (rowCell row i) JSVal.vNull) := by simpa using hp
          rw [this]
          exact hnotmem
      calc buildRecordAux obj (h :: rest) row i
          = buildRecordAux (jsObjSet obj (jsKey h) (jsOr (rowCell row i) JSVal.vNull))
              rest row (i + 1) := rfl
        _ = buildRecordAux (obj ++ [(jsKey h, jsOr (rowCell row i) JSVal.vNull)])
              rest row (i + 1) := by
            rw [jsObjSet_append obj (jsKey h) _ hkey]
        _ = obj ++ [(jsKey h, jsOr (rowCell row i) JSVal.vNull)]
              ++ (rest.enumFrom (i + 1)).map
                  (fun p => (jsKey p.2, jsOr (rowCell row p.1) JSVal.vNull)) :=
            ih row (i + 1) _ hnd' hdisj'
        _ = obj ++ ((h :: rest).enumFrom i).map
              (fun p => (jsKey p.2, jsOr (rowCell row p.1) JSVal.vNull)) := by
            simp [List.enumFrom_cons]

/-- With distinct header keys, the record built from one row is the list of
`(key, row[index] || null)` pairs in header order. -/
theorem buildRecord_eq (headers row : List JSVal) (hnd : (headers.map jsKey).Nodup) :
    buildRecord headers row
      = (headers.enumFrom 0).map
          (fun p => (jsKey p.2, jsOr (rowCell row p.1) JSVal.vNull)) := by
  have h := buildRecordAux_nodup headers row 0 [] hnd (by intro p hp; simp at hp)
  simpa [buildRecord] using h

/-- Entry `i` of the record pairs the `i`-th header key with
`row[i] || null`. -/
theorem buildRecord_getD (headers row : List JSVal) (hnd : (headers.map jsKey).Nodup)
    (i : Nat) (hlt : i < headers.length) :
    (buildRecord headers row).getD i ("", JSVal.vUndefined)
      = (jsKey (headers.getD i JSVal.vUndefined), jsOr (rowCell row i) JSVal.vNull) := by
  rw [buildRecord_eq headers row hnd]
  rw [List.getD_eq_getElem?_getD, List.getElem?_map, List.getElem?_enumFrom]
  have hsome : headers[i]? = some (headers.getD i JSVal.vUndefined) := by
    rw [List.getElem?_eq_getElem hlt, List.getD_eq_getElem?_getD,
        List.getElem?_eq_getElem hlt]
    rfl
  rw [hsome]
  simp

/-- C5: when the header row has `n` (distinct) cells, the record built for a
data row shorter than `n` has exactly the `n` header keys, in header order,
and every key at a position past the row's length is paired with `null`
(missing trailing cells are filled with `null`, the header length being the
row width). -/
theorem webhook_record_null_fill (headers row : List JSVal)
    (hnd : (headers.map jsKey).Nodup) (hlen : row.length < headers.length) :
    (buildRecord headers row).map Prod.fst = headers.map jsKey ∧
    ∀ i, row.length ≤ i → i < headers.length →
      (buildRecord headers row).getD i ("", JSVal.vUndefined)
        = (jsKey (headers.getD i JSVal.vUndefined), JSVal.vNull) := by
  constructor
  · rw [buildRecord_eq headers row hnd]
    calc ((headers.enumFrom 0).map
            (fun p => (jsKey p.2, jsOr (rowCell row p.1) JSVal.vNull))).map Prod.fst
        = (headers.enumFrom 0).map (fun p => jsKey p.2) := by
          rw [List.map_map]
          rfl
      _ = ((headers.enumFrom 0).map Prod.snd).map jsKey := by
          rw [List.map_map]
          rfl
      _ = headers.map jsKey := by rw [List.enumFrom_map_snd]
  · intro i hge hlt
    rw [buildRecord_getD headers row hnd i hlt]
    have hcell : rowCell row i = JSVal.vUndefined :=
      List.getD_eq_default row JSVal.vUndefined hge
    rw [hcell]
    rfl

/-- Witness for C5: three distinct headers against a one-cell row. -/
theorem webhook_record_null_fill_witness :
    (buildRecord [JSVal.vStr "a", JSVal.vStr "b", JSVal.vStr "c"] [JSVal.vStr "x"]).map Prod.fst
        = [JSVal.vStr "a", JSVal.vStr "b", JSVal.vStr "c"].map jsKey ∧
    ∀ i, ([JSVal.vStr "x"] : List JSVal).length ≤ i →
      i < ([JSVal.vStr "a", JSVal.vStr "b", JSVal.vStr "c"] : List JSVal).length →
      (buildRecord [JSVal.vStr "a", JSVal.vStr "b", JSVal.vStr "c"]
          [JSVal.vStr "x"]).getD i ("", JSVal.vUndefined)
        = (jsKey (([JSVal.vStr "a", JSVal.vStr "b", JSVal.vStr "c"] : List JSVal).getD i
            JSVal.vUndefined), JSVal.vNull) :=
  webhook_record_null_fill [JSVal.vStr "a", JSVal.vStr "b", JSVal.vStr "c"]
    [JSVal.vStr "x"] (by decide) (by decide)

/-- C10: inside the record, a present cell whose value is falsy (empty
string, `0`, `false`) is replaced by `null`, while a present truthy value is
kept unchanged — the stored value is `row[i]` exactly when `row[i]` is
truthy, else `null`. -/
theorem webhook_record_falsy_to_null (headers row : List JSVal)
    (hnd : (headers.map jsKey).Nodup) (i : Nat)
    (hih : i < headers.length) (hir : i < row.length) :
    (buildRecord headers row).getD i ("", JSVal.vUndefined)
      = (jsKey (headers.getD i JSVal.vUndefined),
         if (row.getD i JSVal.vUndefined).truthy then row.getD i JSVal.vUndefined
         else JSVal.vNull) := by
  rw [buildRecord_getD headers row hnd i hih]
  rfl

/-- Witness for C10: a falsy present cell (`""`) becomes `null` and a truthy
one is kept. -/
theorem webhook_record_falsy_to_null_witness :
    (buildRecord [JSVal.vStr "a", JSVal.vStr "b"] [JSVal.vStr "", JSVal.vStr "y"]).getD 0
        ("", JSVal.vUndefined)
      = (jsKey (([JSVal.vStr "a", JSVal.vStr "b"] : List JSVal).getD 0 JSVal.vUndefined),
         if (([JSVal.vStr "", JSVal.vStr "y"] : List JSVal).getD 0 JSVal.vUndefined).truthy
         then ([JSVal.vStr "", JSVal.vStr "y"] : List JSVal).getD 0 JSVal.vUndefined
         else JSVal.vNull) :=
  webhook_record_falsy_to_null [JSVal.vStr "a", JSVal.vStr "b"]
    [JSVal.vStr "", JSVal.vStr "y"] (by decide) 0 (by decide) (by decide)

/-- C3 counterexample: a completely empty sheet has zero data rows, yet the
webhook endpoint answers 200 with body `{data: []}` only — the body carries
no `rowCount` field at all, contradicting the claim that the response body
contains `rowCount: 0`. -/
theorem webhook_empty_sheet_counterexample :
    (getSheetDataWebhook
        { spreadsheetId := some "S1", range := none, webhookToken := some "tok" }
        (some "tok")
        { tokenFetch := .ok "svc", sheetApiResult := .ok none }).1.status = 200 ∧
    lookupField (getSheetDataWebhook
        { spreadsheetId := some "S1", range := none, webhookToken := some "tok" }
        (some "tok")
        { tokenFetch := .ok "svc", sheetApiResult := .ok none }).1.body "rowCount" = none ∧
    lookupField (getSheetDataWebhook
        { spreadsheetId := some "S1", range := none, webhookToken := some "tok" }
        (some "tok")
        { tokenFetch := .ok "svc", sheetApiResult := .ok none }).1.body "data"
      = some (.jArr []) :=
  ⟨rfl, rfl, rfl⟩

/-- C3 (amended): on a sheet with zero data rows the webhook endpoint always
answers 200 (never an error) with `data: []`; when the sheet still has a
header row the body also carries `rowCount: 0`, while on a completely empty
sheet the body is `{data: []}` without a `rowCount` field. -/
theorem webhook_zero_data_rows_ok (q : WebhookQuery) (cfg : String) (env : WebhookEnv)
    (htok : q.webhookToken = some cfg) (hcfg : cfg ≠ "")
    (sid : String) (hsid : q.spreadsheetId = some sid) (hsne : sid ≠ "")
    (tk : String) (htf : env.tokenFetch = .ok tk)
    (vals : Option (List (List JSVal))) (hv : env.sheetApiResult = .ok vals)
    (hzero : (vals.getD []).drop 1 = []) :
    (getSheetDataWebhook q (some cfg) env).1.status = 200 ∧
    lookupField (getSheetDataWebhook q (some cfg) env).1.body "data" = some (.jArr []) ∧
    ∀ hd tl, vals = some (hd :: tl) →
      lookupField (getSheetDataWebhook q (some cfg) env).1.body "rowCount"
        = some (.jNum 0) := by
  have hcond : (!(jsTruthyOptStr q.webhookToken) || q.webhookToken != some cfg) = false := by
    simp [htok, jsTruthyOptStr, hcfg]
  have hsidt : jsTruthyOptStr q.spreadsheetId = true := by
    simp [hsid, jsTruthyOptStr, hsne]
  cases vals with
  | none =>
      refine ⟨?_, ?_, ?_⟩
      · simp [getSheetDataWebhook, hcond, hsidt, htf, hv, readSheet]
      · simp [getSheetDataWebhook, hcond, hsidt, htf, hv, readSheet, lookupField]
      · intro hd tl hc
        exact absurd hc (by simp)
  | some rows =>
      cases rows with
      | nil =>
          refine ⟨?_, ?_, ?_⟩
          · simp [getSheetDataWebhook, hcond, hsidt, htf, hv, readSheet]
          · simp [getSheetDataWebhook, hcond, hsidt, htf, hv, readSheet, lookupField]
          · intro hd tl hc
            exact absurd hc (by simp)
      | cons hd tl =>
          have htl : tl = [] := by simpa using hzero
          subst htl
          refine ⟨?_, ?_, ?_⟩
          · simp [getSheetDataWebhook, hcond, hsidt, htf, hv, readSheet]
          · simp [getSheetDataWebhook, hcond, hsidt, htf, hv, readSheet, lookupField,
                  List.lookup]
          · intro hd' tl' _
            simp [getSheetDataWebhook, hcond, hsidt, htf, hv, readSheet, lookupField,
                  List.lookup]

/-- Witness for C3 (amended): a header-only sheet yields 200 with
`rowCount: 0` and `data: []`. -/
theorem webhook_zero_data_rows_ok_witness :
    (getSheetDataWebhook
        { spreadsheetId := some "S2", range := none, webhookToken := some "tok" }
        (some "tok")
        { tokenFetch := .ok "svc",
          sheetApiResult := .ok (some [[JSVal.vStr "h1", JSVal.vStr "h2"]]) }).1.status = 200 ∧
    lookupField (getSheetDataWebhook
        { spreadsheetId := some "S2", range := none, webhookToken := some "tok" }
        (some "tok")
        { tokenFetch := .ok "svc",
          sheetApiResult := .ok (some [[JSVal.vStr "h1", JSVal.vStr "h2"]]) }).1.body "data"
      = some (.jArr []) ∧
    ∀ hd tl, (some [[JSVal.vStr "h1", JSVal.vStr "h2"]] :
        Option (List (List JSVal))) = some (hd :: tl) →
      lookupField (getSheetDataWebhook
          { spreadsheetId := some "S2", range := none, webhookToken := some "tok" }
          (some "tok")
          { tokenFetch := .ok "svc",
            sheetApiResult := .ok (some [[JSVal.vStr "h1", JSVal.vStr "h2"]]) }).1.body
          "rowCount"
        = some (.jNum 0) :=
  webhook_zero_data_rows_ok
    { spreadsheetId := some "S2", range := none, webhookToken := some "tok" }
    "tok"
    { tokenFetch := .ok "svc",
      sheetApiResult := .ok (some [[JSVal.vStr "h1", JSVal.vStr "h2"]]) }
    rfl (by decide) "S2" rfl (by decide) "svc" rfl
    (some [[JSVal.vStr "h1", JSVal.vStr "h2"]]) rfl rfl
